import Mathlib

/-!
Shallow embedding of the booking/availability/payment core of the hotel
management backend (src/backend/server.py), together with theorems checking
the natural-language specification against it.

Modelling conventions:
* Calendar dates are day indices (`Nat`); the source stores dates as ISO-8601
  `YYYY-MM-DD` strings whose lexicographic order coincides with calendar
  order, so `<`/`≤` on day indices is the faithful translation of the Mongo
  string comparisons.
* Timestamps (`datetime`) are microseconds since the epoch (`Nat`); a calendar
  day `d` spans `[d * 86400000000, (d+1) * 86400000000)` microseconds and
  Python's `datetime.max.time()` is `23:59:59.999999`, i.e. offset
  `86399999999` within the day.
* Monetary floats are modelled as `ℚ`.
* Mongo collections are lists; `find_one` is `List.find?` (first match),
  `update_one`/`delete_one` touch the first matching document, `insert_one`
  appends.
* `HTTPException` is an error value carrying status code and detail string;
  handlers that mutate state return the resulting store next to the
  `Except` result, so state written before a failure point is kept (the
  source has no transactions).
-/

namespace Hotel

/-- Room status enum of the source. -/
inductive RoomStatus where
  | available
  | occupied
  | maintenance
  | cleaning
deriving DecidableEq, Repr

/-- Room type enum of the source. -/
inductive RoomType where
  | single
  | double
  | suite
  | deluxe
deriving DecidableEq, Repr

/-- Booking status enum of the source. -/
inductive BookingStatus where
  | pending
  | confirmed
  | checked_in
  | checked_out
  | cancelled
deriving DecidableEq, Repr

/-- Payment type enum of the source. -/
inductive PaymentType where
  | cash
  | card
deriving DecidableEq, Repr

/-- Payment status enum of the source. -/
inductive PaymentStatus where
  | pending
  | completed
  | refunded
deriving DecidableEq, Repr

/-- Expense category enum of the source. -/
inductive ExpenseCategory where
  | utilities
  | maintenance
  | supplies
  | staff
  | marketing
  | other
deriving DecidableEq, Repr

/-- `Room` document (dates/timestamps as microsecond counts, money as `ℚ`). -/
structure Room where
  id : String
  room_number : String
  room_type : RoomType
  price_per_night : ℚ
  status : RoomStatus
  description : Option String
  max_occupancy : Nat
  amenities : List String
  created_at : Nat
deriving DecidableEq, Repr

/-- `Guest` document. -/
structure Guest where
  id : String
  name : String
  email : String
  phone : String
  address : Option String
  country : String
  id_number : Option String
  created_at : Nat
deriving DecidableEq, Repr

/-- `Payment` document; `payment_date` is a timestamp in microseconds. -/
structure Payment where
  id : String
  booking_id : String
  payment_type : PaymentType
  amount : ℚ
  payment_date : Nat
  status : PaymentStatus
  description : Option String
  is_advance : Bool
deriving DecidableEq, Repr

/-- `Expense` document; `expense_date` is a day index. -/
structure Expense where
  id : String
  category : ExpenseCategory
  amount : ℚ
  description : String
  expense_date : Nat
  created_at : Nat
deriving DecidableEq, Repr

/-- `Invoice` document; embeds a by-value copy of the booking's payments. -/
structure Invoice where
  id : String
  booking_id : String
  guest_name : String
  room_number : String
  check_in_date : Nat
  check_out_date : Nat
  total_amount : ℚ
  advance_paid : ℚ
  balance_due : ℚ
  payments : List Payment
  created_at : Nat
deriving DecidableEq, Repr

/-- `Booking` document; dates are day indices. -/
structure Booking where
  id : String
  guest_id : String
  room_id : String
  check_in_date : Nat
  check_out_date : Nat
  status : BookingStatus
  total_amount : ℚ
  special_requests : Option String
  created_at : Nat
deriving DecidableEq, Repr

/-- `BookingCreate` request body. -/
structure BookingCreate where
  guest_id : String
  room_id : String
  check_in_date : Nat
  check_out_date : Nat
  special_requests : Option String
deriving DecidableEq, Repr

/-- `BookingUpdate` request body; `none` means the field was not set. -/
structure BookingUpdate where
  status : Option BookingStatus
  special_requests : Option (Option String)
deriving DecidableEq, Repr

/-- `RoomUpdate` request body; `none` means the field was not set. -/
structure RoomUpdate where
  room_type : Option RoomType
  price_per_night : Option ℚ
  status : Option RoomStatus
  description : Option (Option String)
  max_occupancy : Option Nat
  amenities : Option (List String)
deriving DecidableEq, Repr

/-- `PaymentCreate` request body. -/
structure PaymentCreate where
  booking_id : String
  payment_type : PaymentType
  amount : ℚ
  description : Option String
  is_advance : Bool
deriving DecidableEq, Repr

/-- The document store: one list per Mongo collection used by the core. -/
structure DB where
  rooms : List Room
  guests : List Guest
  bookings : List Booking
  payments : List Payment
  expenses : List Expense
  invoices : List Invoice
deriving DecidableEq, Repr

/-- `HTTPException(status_code, detail)`. -/
structure HTTPError where
  status_code : Nat
  detail : String
deriving DecidableEq, Repr

/-- Mongo `update_one`: rewrite the first element satisfying `p` with `f`. -/
def updateFirst {α : Type} (p : α → Bool) (f : α → α) : List α → List α
  | [] => []
  | x :: xs => if p x then f x :: xs else x :: updateFirst p f xs

/-- Mongo `delete_one`: remove the first element satisfying `p`. -/
def deleteFirst {α : Type} (p : α → Bool) : List α → List α
  | [] => []
  | x :: xs => if p x then xs else x :: deleteFirst p xs

/-- `db.rooms.update_one({"id": room_id}, {"$set": {"status": s}})`. -/
def setRoomStatus (db : DB) (room_id : String) (s : RoomStatus) : DB :=
  let rooms := updateFirst (fun r => r.id = room_id) (fun r => { r with status := s }) db.rooms
  { db with rooms := rooms }

/-- The payments recorded against a booking
(`db.payments.find({"booking_id": booking_id})`). -/
def paymentsFor (db : DB) (booking_id : String) : List Payment :=
  db.payments.filter (fun p => p.booking_id = booking_id)

/-- `sum(payment["amount"] for payment in payments)`. -/
def sumAmounts (ps : List Payment) : ℚ :=
  (ps.map (fun p => p.amount)).sum

/-- `check_room_availability(room_id, check_in, check_out, exclude_booking_id)`:
true iff no booking on the room with status `confirmed` or `checked_in`
(and, when `exclude_booking_id` is truthy, a different id) satisfies
`check_in_date < check_out ∧ check_out_date > check_in`. -/
def check_room_availability (db : DB) (room_id : String)
    (check_in check_out : Nat) (exclude_booking_id : Option String) : Bool :=
  let matchesQuery : Booking → Bool := fun b =>
    b.room_id = room_id
      && (b.status = BookingStatus.confirmed || b.status = BookingStatus.checked_in)
      && (b.check_in_date < check_out && b.check_out_date > check_in)
      && (match exclude_booking_id with
          | some e => if e = "" then true else b.id ≠ e
          | none => true)
  (db.bookings.find? matchesQuery).isNone

/-- `calculate_booking_amount(room_id, check_in, check_out)`:
404 if the room is missing, else `price_per_night * (check_out - check_in).days`
(the day difference is an integer, negative when the dates are reversed). -/
def calculate_booking_amount (db : DB) (room_id : String)
    (check_in check_out : Nat) : Except HTTPError ℚ :=
  match db.rooms.find? (fun r => r.id = room_id) with
  | none => .error ⟨404, "Room not found"⟩
  | some room =>
      let nights : ℤ := (check_out : ℤ) - (check_in : ℤ)
      .ok (room.price_per_night * (nights : ℚ))

/-- `POST /bookings` (`create_booking`): reject reversed dates (the
`BookingCreate` pydantic validator, surfaced as 422), validate guest and room,
check availability, freeze the computed total amount, insert with status
`pending`. `new_id`/`now` stand for the generated uuid and timestamp. -/
def create_booking (db : DB) (new_id : String) (now : Nat) (bc : BookingCreate) :
    Except HTTPError Booking × DB :=
  if bc.check_out_date ≤ bc.check_in_date then
    (.error ⟨422, "Check-out date must be after check-in date"⟩, db)
  else
    match db.guests.find? (fun g => g.id = bc.guest_id) with
    | none => (.error ⟨404, "Guest not found"⟩, db)
    | some _ =>
      match db.rooms.find? (fun r => r.id = bc.room_id) with
      | none => (.error ⟨404, "Room not found"⟩, db)
      | some _ =>
        if ! check_room_availability db bc.room_id bc.check_in_date bc.check_out_date none then
          (.error ⟨400, "Room not available for selected dates"⟩, db)
        else
          match calculate_booking_amount db bc.room_id bc.check_in_date bc.check_out_date with
          | .error e => (.error e, db)
          | .ok total_amount =>
            let b : Booking := ⟨new_id, bc.guest_id, bc.room_id, bc.check_in_date,
              bc.check_out_date, BookingStatus.pending, total_amount, bc.special_requests, now⟩
            (.ok b, { db with bookings := db.bookings ++ [b] })

/-- Apply the `$set` of a `BookingUpdate.dict(exclude_unset=True)` to a booking
document: only `status` and `special_requests` can be written. -/
def applyBookingUpdate (bu : BookingUpdate) (b : Booking) : Booking :=
  let b1 := match bu.status with
    | some s => { b with status := s }
    | none => b
  match bu.special_requests with
  | some sr => { b1 with special_requests := sr }
  | none => b1

/-- The `if "status" in update_data` block of `update_booking`: the room status
write keyed on the requested and current booking status. -/
def statusRoomEffect (db : DB) (booking : Booking) : Option BookingStatus → DB
  | none => db
  | some new_status =>
    if new_status = BookingStatus.checked_in ∧ booking.status = BookingStatus.confirmed then
      setRoomStatus db booking.room_id RoomStatus.occupied
    else if new_status = BookingStatus.checked_out ∧ booking.status = BookingStatus.checked_in then
      setRoomStatus db booking.room_id RoomStatus.cleaning
    else if new_status = BookingStatus.cancelled then
      match db.rooms.find? (fun r => r.id = booking.room_id) with
      | some room =>
        if room.status = RoomStatus.occupied then
          setRoomStatus db booking.room_id RoomStatus.cleaning
        else db
      | none => db
    else db

/-- `PUT /bookings/{id}` (`update_booking`): 404 if missing; when a new status
is supplied, perform the room side effect of `statusRoomEffect`, then write
the updated fields and return the re-fetched booking. -/
def update_booking (db : DB) (booking_id : String) (bu : BookingUpdate) :
    Except HTTPError Booking × DB :=
  match db.bookings.find? (fun b => b.id = booking_id) with
  | none => (.error ⟨404, "Booking not found"⟩, db)
  | some booking =>
    let db1 : DB := statusRoomEffect db booking bu.status
    let bookings2 := updateFirst (fun b => b.id = booking_id) (applyBookingUpdate bu) db1.bookings
    let db2 : DB :=
      if bu.status.isSome || bu.special_requests.isSome then { db1 with bookings := bookings2 }
      else db1
    match db2.bookings.find? (fun b => b.id = booking_id) with
    | some updated => (.ok updated, db2)
    | none => (.error ⟨500, "Internal Server Error"⟩, db2)

/-- `DELETE /bookings/{id}` (`delete_booking`): unconditional once found. -/
def delete_booking (db : DB) (booking_id : String) : Except HTTPError String × DB :=
  match db.bookings.find? (fun b => b.id = booking_id) with
  | none => (.error ⟨404, "Booking not found"⟩, db)
  | some _ =>
    let bookings2 := deleteFirst (fun b => b.id = booking_id) db.bookings
    (.ok "Booking deleted successfully", { db with bookings := bookings2 })

/-- `POST /payments` (`create_payment`): 404 if booking missing, else append a
`completed` payment. -/
def create_payment (db : DB) (new_id : String) (now : Nat) (pc : PaymentCreate) :
    Except HTTPError Payment × DB :=
  match db.bookings.find? (fun b => b.id = pc.booking_id) with
  | none => (.error ⟨404, "Booking not found"⟩, db)
  | some _ =>
    let p : Payment := ⟨new_id, pc.booking_id, pc.payment_type, pc.amount, now,
      PaymentStatus.completed, pc.description, pc.is_advance⟩
    (.ok p, { db with payments := db.payments ++ [p] })

/-- Result shape of `GET /bookings/{id}/balance`. -/
structure BalanceResult where
  booking_id : String
  total_amount : ℚ
  total_paid : ℚ
  balance_due : ℚ
  payments : List Payment
deriving DecidableEq, Repr

/-- `GET /bookings/{id}/balance` (`get_booking_balance`): 404 if missing, else
total paid = sum of the booking's payment amounts and balance = total − paid. -/
def get_booking_balance (db : DB) (booking_id : String) : Except HTTPError BalanceResult :=
  match db.bookings.find? (fun b => b.id = booking_id) with
  | none => .error ⟨404, "Booking not found"⟩
  | some booking =>
    let payments := paymentsFor db booking_id
    let total_paid := sumAmounts payments
    .ok ⟨booking_id, booking.total_amount, total_paid, booking.total_amount - total_paid, payments⟩

/-- `POST /invoices/generate/{booking_id}` (`generate_invoice`): 404 if
booking, guest or room is missing; snapshot the booking's payments by value;
`advance_paid` sums the advance payments, `balance_due` is total − all
payments. `inv_id`/`now` stand for the generated uuid and timestamp. -/
def generate_invoice (db : DB) (booking_id : String) (inv_id : String) (now : Nat) :
    Except HTTPError Invoice × DB :=
  match db.bookings.find? (fun b => b.id = booking_id) with
  | none => (.error ⟨404, "Booking not found"⟩, db)
  | some booking =>
    match db.guests.find? (fun g => g.id = booking.guest_id) with
    | none => (.error ⟨404, "Guest not found"⟩, db)
    | some guest =>
      match db.rooms.find? (fun r => r.id = booking.room_id) with
      | none => (.error ⟨404, "Room not found"⟩, db)
      | some room =>
        let payments := paymentsFor db booking_id
        let total_paid := sumAmounts payments
        let inv : Invoice := ⟨inv_id, booking_id, guest.name, room.room_number,
          booking.check_in_date, booking.check_out_date, booking.total_amount,
          sumAmounts (payments.filter (fun p => p.is_advance)),
          booking.total_amount - total_paid, payments, now⟩
        (.ok inv, { db with invoices := db.invoices ++ [inv] })

/-- Success payload of `POST /bookings/{id}/checkout`. -/
structure CheckoutSummary where
  booking_id : String
  total_amount : ℚ
  total_paid : ℚ
  balance_due : ℚ
  invoice_id : String
deriving DecidableEq, Repr

/-- The tail of `checkout_booking` after the optional final payment has been
processed (`db1` is the store at that point, `total_paid2`/`balance_due2` the
post-payment figures): set the booking `checked_out`, set the room `cleaning`,
generate the invoice, and return the summary. -/
def checkoutFinish (db1 : DB) (booking_id : String) (booking : Booking)
    (total_paid2 balance_due2 : ℚ) (inv_id : String) (inv_now : Nat) :
    Except HTTPError CheckoutSummary × DB :=
  let bookings2 := updateFirst (fun b => b.id = booking_id)
    (fun b => { b with status := BookingStatus.checked_out }) db1.bookings
  let db2 : DB := { db1 with bookings := bookings2 }
  let db3 := setRoomStatus db2 booking.room_id RoomStatus.cleaning
  match generate_invoice db3 booking_id inv_id inv_now with
  | (.error e, db4) => (.error e, db4)
  | (.ok inv, db4) =>
    (.ok ⟨booking_id, booking.total_amount, total_paid2, balance_due2, inv.id⟩, db4)

/-- `POST /bookings/{id}/checkout` (`checkout_booking`): 404 if missing; 400 if
status ≠ `checked_in`; when a final payment is supplied and the balance is
positive, reject amounts above the balance (400) or record the payment with
`is_advance = false`; then set the booking `checked_out`, the room `cleaning`,
generate an invoice and return the post-payment summary. -/
def checkout_booking (db : DB) (booking_id : String) (final_payment : Option PaymentCreate)
    (pay_id : String) (pay_now : Nat) (inv_id : String) (inv_now : Nat) :
    Except HTTPError CheckoutSummary × DB :=
  match db.bookings.find? (fun b => b.id = booking_id) with
  | none => (.error ⟨404, "Booking not found"⟩, db)
  | some booking =>
    if booking.status ≠ BookingStatus.checked_in then
      (.error ⟨400, "Booking must be checked in to checkout"⟩, db)
    else
      let total_paid := sumAmounts (paymentsFor db booking_id)
      let balance_due := booking.total_amount - total_paid
      let step : Except HTTPError (ℚ × ℚ × DB) :=
        match final_payment with
        | some fp =>
          if balance_due > 0 then
            if fp.amount > balance_due then
              .error ⟨400, "Payment amount exceeds balance due"⟩
            else
              let pobj : Payment := ⟨pay_id, booking_id, fp.payment_type, fp.amount, pay_now,
                PaymentStatus.completed, fp.description, false⟩
              .ok (total_paid + fp.amount, balance_due - fp.amount,
                { db with payments := db.payments ++ [pobj] })
          else
            .ok (total_paid, balance_due, db)
        | none => .ok (total_paid, balance_due, db)
      match step with
      | .error e => (.error e, db)
      | .ok (total_paid2, balance_due2, db1) =>
        checkoutFinish db1 booking_id booking total_paid2 balance_due2 inv_id inv_now

/-- Apply the `$set` of a `RoomUpdate.dict(exclude_unset=True)` to a room. -/
def applyRoomUpdate (ru : RoomUpdate) (r : Room) : Room :=
  let r1 := match ru.room_type with | some v => { r with room_type := v } | none => r
  let r2 := match ru.price_per_night with | some v => { r1 with price_per_night := v } | none => r1
  let r3 := match ru.status with | some v => { r2 with status := v } | none => r2
  let r4 := match ru.description with | some v => { r3 with description := v } | none => r3
  let r5 := match ru.max_occupancy with | some v => { r4 with max_occupancy := v } | none => r4
  match ru.amenities with | some v => { r5 with amenities := v } | none => r5

/-- `PUT /rooms/{id}` (`update_room`): 404 if missing, else write the supplied
fields on the first matching room and return it re-fetched. -/
def update_room (db : DB) (room_id : String) (ru : RoomUpdate) : Except HTTPError Room × DB :=
  match db.rooms.find? (fun r => r.id = room_id) with
  | none => (.error ⟨404, "Room not found"⟩, db)
  | some _ =>
    let rooms2 := updateFirst (fun r => r.id = room_id) (applyRoomUpdate ru) db.rooms
    let db1 : DB := { db with rooms := rooms2 }
    match db1.rooms.find? (fun r => r.id = room_id) with
    | some updated => (.ok updated, db1)
    | none => (.error ⟨500, "Internal Server Error"⟩, db1)

/-- Microseconds per calendar day. -/
def microsPerDay : Nat := 86400000000

/-- `datetime.combine(report_date, datetime.min.time())` in microseconds. -/
def dayStartMicros (d : Nat) : Nat := d * microsPerDay

/-- `datetime.combine(report_date, datetime.max.time())` in microseconds:
day start plus `23:59:59.999999`. -/
def dayMaxMicros (d : Nat) : Nat := d * microsPerDay + 86399999999

/-- The `$gte min.time() ∧ $lt max.time()` payment-date filter of
`get_financial_report`. -/
def reportWindowB (report_date : Nat) (p : Payment) : Bool :=
  dayStartMicros report_date ≤ p.payment_date && p.payment_date < dayMaxMicros report_date

/-- The payments the financial report counts for a date. -/
def reportPayments (db : DB) (report_date : Nat) : List Payment :=
  db.payments.filter (reportWindowB report_date)

/-- The dict-building loop grouping expense amounts by category
(association list keyed by first occurrence). -/
def addExpenseToCategory (m : List (ExpenseCategory × ℚ)) (c : ExpenseCategory)
    (a : ℚ) : List (ExpenseCategory × ℚ) :=
  if m.any (fun q => q.1 = c) then
    m.map (fun q => if q.1 = c then (q.1, q.2 + a) else q)
  else
    m ++ [(c, a)]

/-- Result shape of `GET /financial/report`. -/
structure FinancialReport where
  date : Nat
  total_income : ℚ
  total_expenses : ℚ
  net_profit : ℚ
  total_bookings : Nat
  room_revenue : ℚ
  advance_payments : ℚ
  final_payments : ℚ
  expenses_by_category : List (ExpenseCategory × ℚ)
deriving DecidableEq, Repr

/-- `GET /financial/report` (`get_financial_report`): aggregate the day's
checked-out bookings, payments (timestamp window) and expenses. -/
def get_financial_report (db : DB) (report_date : Nat) : FinancialReport :=
  let completed_bookings := db.bookings.filter
    (fun b => b.status = BookingStatus.checked_out && b.check_out_date = report_date)
  let payments := reportPayments db report_date
  let expenses := db.expenses.filter (fun e => e.expense_date = report_date)
  let total_income := sumAmounts payments
  let total_expenses := (expenses.map (fun e => e.amount)).sum
  let net_profit := total_income - total_expenses
  let room_revenue := (completed_bookings.map (fun b => b.total_amount)).sum
  let advance_payments := sumAmounts (payments.filter (fun p => p.is_advance))
  let final_payments := sumAmounts (payments.filter (fun p => ! p.is_advance))
  let expenses_by_category :=
    expenses.foldl (fun m e => addExpenseToCategory m e.category e.amount) []
  ⟨report_date, total_income, total_expenses, net_profit, completed_bookings.length,
    room_revenue, advance_payments, final_payments, expenses_by_category⟩

/-- The booking-store operations quantified over by the reachability claim. -/
inductive Op where
  | create (new_id : String) (now : Nat) (bc : BookingCreate)
  | update (booking_id : String) (bu : BookingUpdate)
  | checkout (booking_id : String) (final_payment : Option PaymentCreate)
      (pay_id : String) (pay_now : Nat) (inv_id : String) (inv_now : Nat)
  | delete (booking_id : String)

/-- Run one operation for its effect on the store. -/
def applyOp (db : DB) : Op → DB
  | .create new_id now bc => (create_booking db new_id now bc).2
  | .update booking_id bu => (update_booking db booking_id bu).2
  | .checkout booking_id fp pay_id pay_now inv_id inv_now =>
      (checkout_booking db booking_id fp pay_id pay_now inv_id inv_now).2
  | .delete booking_id => (delete_booking db booking_id).2

/-- Run a sequence of operations. -/
def runOps (db : DB) (ops : List Op) : DB := ops.foldl applyOp db

/-!
Boolean form of the spec's non-overlap invariant, and concrete stores used to
evaluate the operations on explicit inputs.
-/

/-- A booking blocks a room iff its status is `confirmed` or `checked_in`. -/
def blockingB (b : Booking) : Bool :=
  b.status = BookingStatus.confirmed || b.status = BookingStatus.checked_in

/-- Half-open interval overlap `a.checkIn < b.checkOut ∧ a.checkOut > b.checkIn`. -/
def overlapsB (a b : Booking) : Bool :=
  a.check_in_date < b.check_out_date && a.check_out_date > b.check_in_date

/-- The spec's §3 invariant: no two distinct blocking bookings on the same room
overlap. -/
def roomNonOverlapB (db : DB) : Bool :=
  db.bookings.all fun a => db.bookings.all fun b =>
    !(a.id ≠ b.id && a.room_id = b.room_id && blockingB a && blockingB b && overlapsB a b)

/-- Fixture: an available room at 100 per night. -/
def room1 : Room := ⟨"r1", "101", RoomType.single, 100, RoomStatus.available, none, 2, [], 0⟩

/-- Fixture: a guest. -/
def guest1 : Guest := ⟨"g1", "Alice Smith", "alice@example.com", "555-0101", none, "Unknown", none, 0⟩

/-- Fixture: a store with one room, one guest and an empty booking collection. -/
def db0 : DB := ⟨[room1], [guest1], [], [], [], []⟩

/-- Fixture: create two overlapping bookings (both stored `pending`, so neither
blocks the other at creation), then promote both to `confirmed` through the
generic update endpoint, which performs no availability re-check. -/
def overlapOps : List Op :=
  [ Op.create "b1" 0 ⟨"g1", "r1", 0, 2, none⟩
  , Op.create "b2" 0 ⟨"g1", "r1", 1, 3, none⟩
  , Op.update "b1" ⟨some BookingStatus.confirmed, none⟩
  , Op.update "b2" ⟨some BookingStatus.confirmed, none⟩ ]

/-- Fixture: a checked-in booking over `[0, 3)` totalling 300. -/
def bookingA : Booking := ⟨"bk1", "g1", "r1", 0, 3, BookingStatus.checked_in, 300, none, 0⟩

/-- Fixture: a 100 advance payment on `bk1`. -/
def advancePay : Payment :=
  ⟨"p1", "bk1", PaymentType.card, 100, 10, PaymentStatus.completed, none, true⟩

/-- Fixture: a 250 settlement payment on `bk1` (overpays together with the advance). -/
def bigPay : Payment :=
  ⟨"p2", "bk1", PaymentType.cash, 250, 20, PaymentStatus.completed, none, false⟩

/-- Fixture: a 200 settlement payment on `bk1` (settles exactly with the advance). -/
def pay200 : Payment :=
  ⟨"p3", "bk1", PaymentType.cash, 200, 20, PaymentStatus.completed, none, false⟩

/-- Fixture: checked-in booking with a 100 advance; balance 200. -/
def dbCheckedIn : DB := ⟨[room1], [guest1], [bookingA], [advancePay], [], []⟩

/-- Fixture: checked-in booking overpaid to 350 on a 300 total; balance −50. -/
def dbOverpaid : DB := ⟨[room1], [guest1], [bookingA], [advancePay, bigPay], [], []⟩

/-- Fixture: checked-in booking fully paid (100 + 200 on 300); balance 0. -/
def dbPaidFull : DB := ⟨[room1], [guest1], [bookingA], [advancePay, pay200], [], []⟩

/-- Fixture: a confirmed booking over `[0, 2)`. -/
def bookingConfirmed : Booking := ⟨"bk2", "g1", "r1", 0, 2, BookingStatus.confirmed, 200, none, 0⟩

/-- Fixture: store with one confirmed booking. -/
def dbConfirmed : DB := ⟨[room1], [guest1], [bookingConfirmed], [], [], []⟩

/-- Fixture: a payment on day 0 at `23:59:59.500000`, strictly inside the
source's query window but after the claimed `23:59:59` inclusive bound. -/
def latePayment : Payment :=
  ⟨"p9", "b9", PaymentType.cash, 100, 86399500000, PaymentStatus.completed, none, false⟩

/-- Fixture: store holding only `latePayment`. -/
def dbLate : DB := ⟨[], [], [], [latePayment], [], []⟩

/-- The payment window exactly as the claim words it: the inclusive range
`[date 00:00:00, date 23:59:59]` (second precision, so up to and including
microsecond offset `86399000000`). Stated from the spec's words, to be
compared with `reportWindowB`, the window the source actually queries. -/
def claimInclusiveWindowB (d : Nat) (t : Nat) : Bool :=
  dayStartMicros d ≤ t && t ≤ dayStartMicros d + 86399000000

/-!
Helper lemmas about the list-store primitives, then one theorem per claim of
the specification (with a closed witness wherever a theorem carries a
hypothesis).
-/

theorem find?_updateFirst {α : Type} (p : α → Bool) (f : α → α) (l : List α)
    (hpf : ∀ a, p (f a) = p a) :
    (updateFirst p f l).find? p = (l.find? p).map f := by
  induction l with
  | nil => rfl
  | cons x xs ih =>
    by_cases hx : p x
    · simp [updateFirst, hx, List.find?_cons_of_pos, hpf]
    · simp [updateFirst, hx, List.find?_cons_of_neg, hpf, ih]

theorem applyBookingUpdate_fields (bu : BookingUpdate) (b : Booking) :
    (applyBookingUpdate bu b).id = b.id ∧
    (applyBookingUpdate bu b).guest_id = b.guest_id ∧
    (applyBookingUpdate bu b).room_id = b.room_id ∧
    (applyBookingUpdate bu b).check_in_date = b.check_in_date ∧
    (applyBookingUpdate bu b).check_out_date = b.check_out_date ∧
    (applyBookingUpdate bu b).total_amount = b.total_amount ∧
    (applyBookingUpdate bu b).created_at = b.created_at := by
  unfold applyBookingUpdate
  cases bu.status <;> cases bu.special_requests <;>
    exact ⟨rfl, rfl, rfl, rfl, rfl, rfl, rfl⟩

theorem setRoomStatus_bookings (db : DB) (rid : String) (s : RoomStatus) :
    (setRoomStatus db rid s).bookings = db.bookings := rfl

theorem statusRoomEffect_bookings (db : DB) (b : Booking) (s : Option BookingStatus) :
    (statusRoomEffect db b s).bookings = db.bookings := by
  cases s with
  | none => rfl
  | some ns =>
    simp only [statusRoomEffect]
    split_ifs <;> try rfl
    split <;> first | (split_ifs <;> rfl) | rfl

theorem update_booking_snd_bookings (db : DB) (booking_id : String) (bu : BookingUpdate)
    (b : Booking) (hb : db.bookings.find? (fun x => x.id = booking_id) = some b) :
    (update_booking db booking_id bu).2.bookings =
      (if bu.status.isSome || bu.special_requests.isSome then
        updateFirst (fun x => x.id = booking_id) (applyBookingUpdate bu) db.bookings
      else db.bookings) := by
  unfold update_booking
  rw [hb]
  dsimp only
  split_ifs with h <;> split <;> simp [statusRoomEffect_bookings]

theorem update_booking_snd_rooms (db : DB) (booking_id : String) (bu : BookingUpdate)
    (b : Booking) (hb : db.bookings.find? (fun x => x.id = booking_id) = some b) :
    (update_booking db booking_id bu).2.rooms = (statusRoomEffect db b bu.status).rooms := by
  unfold update_booking
  rw [hb]
  dsimp only
  split_ifs <;> split <;> rfl

theorem update_booking_fst_ok (db : DB) (booking_id : String) (bu : BookingUpdate)
    (b : Booking) (hb : db.bookings.find? (fun x => x.id = booking_id) = some b) :
    (update_booking db booking_id bu).1 =
      .ok (if bu.status.isSome || bu.special_requests.isSome then applyBookingUpdate bu b else b) := by
  have hpf : ∀ a : Booking,
      (decide ((applyBookingUpdate bu a).id = booking_id)) = decide (a.id = booking_id) := by
    intro a; rw [(applyBookingUpdate_fields bu a).1]
  unfold update_booking
  rw [hb]
  dsimp only
  split_ifs with h
  · rw [show ({ statusRoomEffect db b bu.status with
        bookings := updateFirst (fun x => x.id = booking_id) (applyBookingUpdate bu)
          (statusRoomEffect db b bu.status).bookings } : DB).bookings =
        updateFirst (fun x => x.id = booking_id) (applyBookingUpdate bu)
          (statusRoomEffect db b bu.status).bookings from rfl]
    rw [statusRoomEffect_bookings, find?_updateFirst _ _ _ hpf, hb]
    rfl
  · rw [statusRoomEffect_bookings, hb]

/-- C1: the claimed reachability invariant fails on the code: from a store with
one room, one guest and no bookings, two overlapping bookings are created (both
`pending`, so neither blocks the other), then both are promoted to `confirmed`
through `update_booking`, which performs no availability re-check; the
resulting state has two confirmed overlapping bookings on the same room. -/
theorem c1_nonoverlap_invariant_fails :
    roomNonOverlapB (runOps db0 overlapOps) = false := by decide

/-- C5: `calculate_booking_amount` fails 404 when the room does not exist and
otherwise returns `nights * price_per_night` with `nights` the whole number of
days from check-in to check-out. -/
theorem c5_calculate_amount (db : DB) (room_id : String) (check_in check_out : Nat)
    (h : check_in < check_out) :
    (db.rooms.find? (fun r => r.id = room_id) = none →
      calculate_booking_amount db room_id check_in check_out =
        .error ⟨404, "Room not found"⟩) ∧
    (∀ room, db.rooms.find? (fun r => r.id = room_id) = some room →
      calculate_booking_amount db room_id check_in check_out =
        .ok (((check_out - check_in : Nat) : ℚ) * room.price_per_night)) := by
  constructor
  · intro hnone
    unfold calculate_booking_amount
    rw [hnone]
  · intro room hsome
    unfold calculate_booking_amount
    rw [hsome]
    dsimp only
    congr 1
    rw [mul_comm]
    congr 1
    push_cast [Nat.cast_sub h.le]
    ring

/-- C5 witness: price 100 over three nights gives exactly 300. -/
theorem c5_witness :
    (0 : Nat) < 3 ∧ calculate_booking_amount db0 "r1" 0 3 = .ok 300 := by
  refine ⟨by decide, ?_⟩
  have h := (c5_calculate_amount db0 "r1" 0 3 (by decide)).2 room1 (by decide)
  rw [h]
  norm_num [room1]

/-- C6: the balance query fails 404 when the booking is missing, and otherwise
reports `total_paid` as the sum of all payments against the booking and
`balance_due = total_amount − total_paid`, negative (not clamped) when
payments exceed the total. -/
theorem c6_booking_balance (db : DB) (booking_id : String) :
    (db.bookings.find? (fun x => x.id = booking_id) = none →
      get_booking_balance db booking_id = .error ⟨404, "Booking not found"⟩) ∧
    (∀ b, db.bookings.find? (fun x => x.id = booking_id) = some b →
      get_booking_balance db booking_id =
        .ok ⟨booking_id, b.total_amount, sumAmounts (paymentsFor db booking_id),
          b.total_amount - sumAmounts (paymentsFor db booking_id),
          paymentsFor db booking_id⟩ ∧
      (b.total_amount < sumAmounts (paymentsFor db booking_id) →
        b.total_amount - sumAmounts (paymentsFor db booking_id) < 0)) := by
  constructor
  · intro hnone
    unfold get_booking_balance
    rw [hnone]
  · intro b hsome
    refine ⟨?_, fun hlt => by linarith⟩
    unfold get_booking_balance
    rw [hsome]

/-- C6 witness: a 100 advance plus a 200 settlement on a 300 booking leave
total paid 300 and balance 0. -/
theorem c6_witness :
    get_booking_balance dbPaidFull "bk1" =
      .ok ⟨"bk1", 300, 300, 0, [advancePay, pay200]⟩ := by
  have h := ((c6_booking_balance dbPaidFull "bk1").2 bookingA (by decide)).1
  rw [h]
  congr 1
  norm_num [bookingA, paymentsFor, dbPaidFull, sumAmounts, advancePay, pay200]

/-- C3: `check_room_availability` returns true iff no booking on the room with
status `confirmed` or `checked_in` (the excluded id removed from
consideration) overlaps the candidate half-open range; back-to-back ranges do
not conflict and the check performs no writes (it returns only a Bool over the
unchanged store). -/
theorem c3_availability (db : DB) (room_id : String) (check_in check_out : Nat)
    (e : Option String) (he : ∀ s, e = some s → s ≠ "") :
    check_room_availability db room_id check_in check_out e = true ↔
      ∀ b ∈ db.bookings, b.room_id = room_id →
        (b.status = BookingStatus.confirmed ∨ b.status = BookingStatus.checked_in) →
        e ≠ some b.id →
        ¬(check_in < b.check_out_date ∧ check_out > b.check_in_date) := by
  unfold check_room_availability
  rw [Option.isNone_iff_eq_none, List.find?_eq_none]
  refine forall_congr' fun b => imp_congr_right fun hb => ?_
  cases e with
  | none =>
    simp only [Bool.and_true, Bool.and_eq_true, Bool.or_eq_true, decide_eq_true_eq,
      gt_iff_lt, ne_eq]
    tauto
  | some s =>
    have hs : s ≠ "" := he s rfl
    have hns : (¬s = b.id) ↔ (¬b.id = s) := ⟨fun h q => h q.symm, fun h q => h q.symm⟩
    simp only [hs, if_false, Bool.and_eq_true, Bool.or_eq_true, decide_eq_true_eq,
      gt_iff_lt, ne_eq, Option.some.injEq]
    rw [hns]
    tauto

/-- C3 witness: with a confirmed booking over `[0, 2)`, the back-to-back
candidate `[2, 4)` is available. -/
theorem c3_witness :
    check_room_availability dbConfirmed "r1" 2 4 none = true :=
  (c3_availability dbConfirmed "r1" 2 4 none (fun s h => by cases h)).mpr (by decide)

/-- C4: when `update_booking` sets a new status, the room side effect is fixed
by the (current, new) status pair — `confirmed→checked_in` makes the room
`occupied`, `checked_in→checked_out` makes it `cleaning`, `any→cancelled`
makes it `cleaning` iff it is currently `occupied`, and every other pair
(including `pending→confirmed` and the skip `pending→checked_in`) leaves the
rooms untouched; no transition is rejected. -/
theorem c4_status_room_effects (db : DB) (booking_id : String) (bu : BookingUpdate)
    (b : Booking) (ns : BookingStatus)
    (hb : db.bookings.find? (fun x => x.id = booking_id) = some b)
    (hs : bu.status = some ns) :
    (∃ b2, (update_booking db booking_id bu).1 = .ok b2) ∧
    (ns = BookingStatus.checked_in → b.status = BookingStatus.confirmed →
      (update_booking db booking_id bu).2.rooms =
        (setRoomStatus db b.room_id RoomStatus.occupied).rooms) ∧
    (ns = BookingStatus.checked_out → b.status = BookingStatus.checked_in →
      (update_booking db booking_id bu).2.rooms =
        (setRoomStatus db b.room_id RoomStatus.cleaning).rooms) ∧
    (ns = BookingStatus.cancelled →
      ((∃ r, db.rooms.find? (fun x => x.id = b.room_id) = some r ∧
          r.status = RoomStatus.occupied) →
        (update_booking db booking_id bu).2.rooms =
          (setRoomStatus db b.room_id RoomStatus.cleaning).rooms) ∧
      ((∀ r, db.rooms.find? (fun x => x.id = b.room_id) = some r →
          r.status ≠ RoomStatus.occupied) →
        (update_booking db booking_id bu).2.rooms = db.rooms)) ∧
    (ns = BookingStatus.confirmed → (update_booking db booking_id bu).2.rooms = db.rooms) ∧
    (ns = BookingStatus.pending → (update_booking db booking_id bu).2.rooms = db.rooms) ∧
    (ns = BookingStatus.checked_in → b.status ≠ BookingStatus.confirmed →
      (update_booking db booking_id bu).2.rooms = db.rooms) ∧
    (ns = BookingStatus.checked_out → b.status ≠ BookingStatus.checked_in →
      (update_booking db booking_id bu).2.rooms = db.rooms) := by
  have hrooms := update_booking_snd_rooms db booking_id bu b hb
  rw [hs] at hrooms
  refine ⟨⟨_, update_booking_fst_ok db booking_id bu b hb⟩, ?_, ?_, ?_, ?_, ?_, ?_, ?_⟩
  · intro h1 h2
    rw [hrooms]
    simp [statusRoomEffect, h1, h2]
  · intro h1 h2
    rw [hrooms]
    simp [statusRoomEffect, h1, h2]
  · intro h1
    subst h1
    constructor
    · rintro ⟨r, hr, hocc⟩
      rw [hrooms]
      simp only [statusRoomEffect]
      rw [if_neg (by simp), if_neg (by simp), if_pos trivial, hr]
      dsimp only
      rw [if_pos hocc]
    · intro hno
      rw [hrooms]
      simp only [statusRoomEffect]
      rw [if_neg (by simp), if_neg (by simp), if_pos trivial]
      cases hfind : db.rooms.find? (fun x => x.id = b.room_id) with
      | none => rfl
      | some r =>
        dsimp only
        rw [if_neg (hno r hfind)]
  · intro h1
    subst h1
    rw [hrooms]
    simp [statusRoomEffect]
  · intro h1
    subst h1
    rw [hrooms]
    simp [statusRoomEffect]
  · intro h1 h2
    subst h1
    rw [hrooms]
    simp [statusRoomEffect, h2]
  · intro h1 h2
    subst h1
    rw [hrooms]
    simp [statusRoomEffect, h2]

/-- C4 witness: confirming then checking in a booking marks its room occupied. -/
theorem c4_witness :
    (update_booking dbConfirmed "bk2" ⟨some BookingStatus.checked_in, none⟩).2.rooms =
      (setRoomStatus dbConfirmed bookingConfirmed.room_id RoomStatus.occupied).rooms :=
  (c4_status_room_effects dbConfirmed "bk2" ⟨some BookingStatus.checked_in, none⟩
    bookingConfirmed BookingStatus.checked_in (by decide) rfl).2.1 rfl rfl

/-- C9: a booking update can change only `status` and `special_requests`; the
booking's guest, room, dates, frozen total amount and creation timestamp are
unchanged, and a room update (e.g. a later price change) never touches the
bookings collection. -/
theorem c9_update_frame (db : DB) (booking_id : String) (bu : BookingUpdate)
    (b : Booking) (hb : db.bookings.find? (fun x => x.id = booking_id) = some b) :
    (∀ b2, (update_booking db booking_id bu).2.bookings.find?
        (fun x => x.id = booking_id) = some b2 →
      b2.guest_id = b.guest_id ∧ b2.room_id = b.room_id ∧
      b2.check_in_date = b.check_in_date ∧ b2.check_out_date = b.check_out_date ∧
      b2.total_amount = b.total_amount ∧ b2.created_at = b.created_at) ∧
    (∀ rid ru, (update_room db rid ru).2.bookings = db.bookings) := by
  have hpf : ∀ a : Booking,
      (decide ((applyBookingUpdate bu a).id = booking_id)) = decide (a.id = booking_id) := by
    intro a; rw [(applyBookingUpdate_fields bu a).1]
  constructor
  · intro b2 h2
    rw [update_booking_snd_bookings db booking_id bu b hb] at h2
    by_cases h : (bu.status.isSome || bu.special_requests.isSome) = true
    · rw [if_pos h, find?_updateFirst _ _ _ hpf, hb, Option.map_some'] at h2
      obtain rfl : applyBookingUpdate bu b = b2 := by injection h2
      have hf := applyBookingUpdate_fields bu b
      exact ⟨hf.2.1, hf.2.2.1, hf.2.2.2.1, hf.2.2.2.2.1, hf.2.2.2.2.2.1, hf.2.2.2.2.2.2⟩
    · rw [if_neg h, hb] at h2
      obtain rfl : b = b2 := by injection h2
      exact ⟨rfl, rfl, rfl, rfl, rfl, rfl⟩
  · intro rid ru
    unfold update_room
    split
    · rfl
    · dsimp only
      split <;> rfl

/-- C9 witness: cancelling the checked-in booking leaves its frozen fields. -/
theorem c9_witness :
    ({ bookingA with status := BookingStatus.cancelled } : Booking).guest_id =
        bookingA.guest_id ∧
      ({ bookingA with status := BookingStatus.cancelled } : Booking).room_id =
        bookingA.room_id ∧
      ({ bookingA with status := BookingStatus.cancelled } : Booking).check_in_date =
        bookingA.check_in_date ∧
      ({ bookingA with status := BookingStatus.cancelled } : Booking).check_out_date =
        bookingA.check_out_date ∧
      ({ bookingA with status := BookingStatus.cancelled } : Booking).total_amount =
        bookingA.total_amount ∧
      ({ bookingA with status := BookingStatus.cancelled } : Booking).created_at =
        bookingA.created_at :=
  (c9_update_frame dbCheckedIn "bk1" ⟨some BookingStatus.cancelled, none⟩ bookingA
    (by decide)).1 { bookingA with status := BookingStatus.cancelled } (by decide)

theorem sumAmounts_append (l1 l2 : List Payment) :
    sumAmounts (l1 ++ l2) = sumAmounts l1 + sumAmounts l2 := by
  unfold sumAmounts
  rw [List.map_append, List.sum_append]

theorem generate_invoice_frame (db : DB) (bid i : String) (n : Nat) :
    (generate_invoice db bid i n).2.payments = db.payments ∧
    (generate_invoice db bid i n).2.bookings = db.bookings ∧
    (generate_invoice db bid i n).2.rooms = db.rooms ∧
    (generate_invoice db bid i n).2.guests = db.guests := by
  unfold generate_invoice
  repeat' split
  all_goals exact ⟨rfl, rfl, rfl, rfl⟩

theorem generate_invoice_ok_shape (db : DB) (bid i : String) (n : Nat) (inv : Invoice)
    (db2 : DB) (h : generate_invoice db bid i n = (.ok inv, db2)) :
    inv.id = i ∧ db2.invoices = db.invoices ++ [inv] := by
  unfold generate_invoice at h
  repeat' split at h
  any_goals (injection h with h1 h2; exact Except.noConfusion h1)
  injection h with h1 h2
  injection h1 with h1
  subst h1
  subst h2
  exact ⟨rfl, rfl⟩

theorem generate_invoice_ok_of (db : DB) (bid i : String) (n : Nat)
    (b : Booking) (g : Guest) (r : Room)
    (hb : db.bookings.find? (fun x => x.id = bid) = some b)
    (hg : db.guests.find? (fun x => x.id = b.guest_id) = some g)
    (hr : db.rooms.find? (fun x => x.id = b.room_id) = some r) :
    generate_invoice db bid i n =
      (.ok ⟨i, bid, g.name, r.room_number, b.check_in_date, b.check_out_date,
          b.total_amount,
          sumAmounts ((paymentsFor db bid).filter (fun p => p.is_advance)),
          b.total_amount - sumAmounts (paymentsFor db bid), paymentsFor db bid, n⟩,
        { db with invoices := db.invoices ++
          [⟨i, bid, g.name, r.room_number, b.check_in_date, b.check_out_date,
            b.total_amount,
            sumAmounts ((paymentsFor db bid).filter (fun p => p.is_advance)),
            b.total_amount - sumAmounts (paymentsFor db bid), paymentsFor db bid, n⟩] }) := by
  unfold generate_invoice
  rw [hb]
  dsimp only
  rw [hg]
  dsimp only
  rw [hr]

/-- C7: `generate_invoice` fails 404 when booking, guest or room is missing;
otherwise it persists a new invoice whose `advance_paid` sums the advance
payments, whose `balance_due` is total minus all payments, and which embeds the
booking's payment list by value, so a payment recorded afterwards leaves the
stored invoice list unchanged. -/
theorem c7_generate_invoice (db : DB) (booking_id inv_id : String) (now : Nat) :
    (db.bookings.find? (fun x => x.id = booking_id) = none →
      generate_invoice db booking_id inv_id now = (.error ⟨404, "Booking not found"⟩, db)) ∧
    (∀ b, db.bookings.find? (fun x => x.id = booking_id) = some b →
      (db.guests.find? (fun x => x.id = b.guest_id) = none →
        generate_invoice db booking_id inv_id now = (.error ⟨404, "Guest not found"⟩, db)) ∧
      (∀ g, db.guests.find? (fun x => x.id = b.guest_id) = some g →
        (db.rooms.find? (fun x => x.id = b.room_id) = none →
          generate_invoice db booking_id inv_id now = (.error ⟨404, "Room not found"⟩, db)) ∧
        (∀ r, db.rooms.find? (fun x => x.id = b.room_id) = some r →
          ∃ inv, generate_invoice db booking_id inv_id now =
              (.ok inv, { db with invoices := db.invoices ++ [inv] }) ∧
            inv.advance_paid =
              sumAmounts ((paymentsFor db booking_id).filter (fun p => p.is_advance)) ∧
            inv.balance_due = b.total_amount - sumAmounts (paymentsFor db booking_id) ∧
            inv.payments = paymentsFor db booking_id ∧
            ∀ pc pid pnow,
              (create_payment { db with invoices := db.invoices ++ [inv] } pid pnow pc).2.invoices =
                db.invoices ++ [inv]))) := by
  refine ⟨?_, ?_⟩
  · intro hnone
    unfold generate_invoice
    rw [hnone]
  · intro b hb
    refine ⟨?_, ?_⟩
    · intro hnone
      unfold generate_invoice
      rw [hb]
      dsimp only
      rw [hnone]
    · intro g hg
      refine ⟨?_, ?_⟩
      · intro hnone
        unfold generate_invoice
        rw [hb]
        dsimp only
        rw [hg]
        dsimp only
        rw [hnone]
      · intro r hr
        refine ⟨_, generate_invoice_ok_of db booking_id inv_id now b g r hb hg hr,
          rfl, rfl, rfl, ?_⟩
        intro pc pid pnow
        unfold create_payment
        split <;> rfl

/-- C7 witness: invoice generation on the fully-paid fixture. -/
theorem c7_witness :
    ∃ inv, generate_invoice dbPaidFull "bk1" "inv1" 50 =
        (.ok inv, { dbPaidFull with invoices := dbPaidFull.invoices ++ [inv] }) ∧
      inv.advance_paid =
        sumAmounts ((paymentsFor dbPaidFull "bk1").filter (fun p => p.is_advance)) ∧
      inv.balance_due = bookingA.total_amount - sumAmounts (paymentsFor dbPaidFull "bk1") ∧
      inv.payments = paymentsFor dbPaidFull "bk1" ∧
      ∀ pc pid pnow,
        (create_payment { dbPaidFull with
            invoices := dbPaidFull.invoices ++ [inv] } pid pnow pc).2.invoices =
          dbPaidFull.invoices ++ [inv] :=
  (((c7_generate_invoice dbPaidFull "bk1" "inv1" 50).2 bookingA (by decide)).2 guest1
    (by decide)).2 room1 (by decide)

/-- C8 counterexample: a payment timestamped `23:59:59.500000` on the report
day is counted by the source (it is `$lt` `23:59:59.999999`), although it is
outside the claimed inclusive window `[00:00:00, 23:59:59]`. -/
theorem c8_counterexample :
    (get_financial_report dbLate 0).total_income = 100 ∧
    (get_financial_report dbLate 0).final_payments = 100 ∧
    claimInclusiveWindowB 0 latePayment.payment_date = false := by
  refine ⟨?_, ?_, by decide⟩ <;>
    norm_num [get_financial_report, reportPayments, reportWindowB, dbLate, latePayment,
      sumAmounts, dayStartMicros, dayMaxMicros, microsPerDay]

/-- C8 (amended): a payment is counted by the report — in `total_income` and in
the advance/final split — iff its timestamp lies in `[date 00:00:00,
date 23:59:59.999999)`: at or after the day's start and strictly before
`datetime.max.time()`. -/
theorem c8_report_window (db : DB) (d : Nat) (p : Payment) (hp : p ∈ db.payments) :
    (p ∈ reportPayments db d ↔
      dayStartMicros d ≤ p.payment_date ∧ p.payment_date < dayMaxMicros d) ∧
    (get_financial_report db d).total_income = sumAmounts (reportPayments db d) ∧
    (get_financial_report db d).advance_payments =
      sumAmounts ((reportPayments db d).filter (fun q => q.is_advance)) ∧
    (get_financial_report db d).final_payments =
      sumAmounts ((reportPayments db d).filter (fun q => ! q.is_advance)) := by
  refine ⟨?_, rfl, rfl, rfl⟩
  unfold reportPayments reportWindowB
  rw [List.mem_filter]
  simp [hp]

/-- C8 witness: the window characterization evaluated on the late payment. -/
theorem c8_witness :
    latePayment ∈ dbLate.payments ∧
    (latePayment ∈ reportPayments dbLate 0 ↔
      dayStartMicros 0 ≤ latePayment.payment_date ∧
        latePayment.payment_date < dayMaxMicros 0) :=
  ⟨by decide, (c8_report_window dbLate 0 latePayment (by decide)).1⟩

theorem checkoutFinish_shape (db1 : DB) (bid : String) (bk : Booking) (tp bd : ℚ)
    (i : String) (n : Nat) (s : CheckoutSummary) (db2 : DB)
    (h : checkoutFinish db1 bid bk tp bd i n = (.ok s, db2)) :
    s.booking_id = bid ∧ s.total_amount = bk.total_amount ∧ s.total_paid = tp ∧
    s.balance_due = bd ∧ s.invoice_id = i ∧
    db2.payments = db1.payments ∧
    db2.bookings = updateFirst (fun x => x.id = bid)
      (fun x => { x with status := BookingStatus.checked_out }) db1.bookings ∧
    db2.rooms = updateFirst (fun x => x.id = bk.room_id)
      (fun r => { r with status := RoomStatus.cleaning }) db1.rooms ∧
    ∃ inv, inv.id = i ∧ db2.invoices = db1.invoices ++ [inv] := by
  unfold checkoutFinish at h
  dsimp only at h
  rcases hgen : generate_invoice (setRoomStatus { db1 with
      bookings := updateFirst (fun b => b.id = bid)
        (fun b => { b with status := BookingStatus.checked_out }) db1.bookings }
      bk.room_id RoomStatus.cleaning) bid i n with ⟨res, db4⟩
  rw [hgen] at h
  cases res with
  | error e =>
    exact absurd h (fun hc => by injection hc with h1 h2; exact Except.noConfusion h1)
  | ok inv =>
    injection h with h1 h2
    injection h1 with h1
    subst h1
    subst h2
    have h4 : db4 = (generate_invoice (setRoomStatus { db1 with
        bookings := updateFirst (fun b => b.id = bid)
          (fun b => { b with status := BookingStatus.checked_out }) db1.bookings }
        bk.room_id RoomStatus.cleaning) bid i n).2 := by rw [hgen]
    have hfr := generate_invoice_frame (setRoomStatus { db1 with
        bookings := updateFirst (fun b => b.id = bid)
          (fun b => { b with status := BookingStatus.checked_out }) db1.bookings }
        bk.room_id RoomStatus.cleaning) bid i n
    have hsh := generate_invoice_ok_shape _ bid i n inv db4 (by rw [hgen])
    refine ⟨rfl, rfl, rfl, rfl, hsh.1, ?_, ?_, ?_, inv, hsh.1, ?_⟩
    · rw [h4, hfr.1]
      rfl
    · rw [h4, hfr.2.1, setRoomStatus_bookings]
    · rw [h4, hfr.2.2.1]
      rfl
    · rw [hsh.2]
      rfl

theorem checkoutFinish_ok_of (db1 : DB) (bid : String) (b : Booking) (tp bd : ℚ)
    (i : String) (n : Nat) (g : Guest) (r : Room)
    (hb1 : db1.bookings.find? (fun x => x.id = bid) = some b)
    (hg1 : db1.guests.find? (fun x => x.id = b.guest_id) = some g)
    (hr1 : db1.rooms.find? (fun x => x.id = b.room_id) = some r) :
    (checkoutFinish db1 bid b tp bd i n).1 =
      .ok ⟨bid, b.total_amount, tp, bd, i⟩ := by
  have hbX : (setRoomStatus { db1 with
      bookings := updateFirst (fun x => x.id = bid)
        (fun x => { x with status := BookingStatus.checked_out }) db1.bookings }
      b.room_id RoomStatus.cleaning).bookings.find? (fun x => x.id = bid) =
      some { b with status := BookingStatus.checked_out } := by
    rw [setRoomStatus_bookings]
    show (updateFirst (fun x => x.id = bid)
      (fun x => { x with status := BookingStatus.checked_out }) db1.bookings).find?
        (fun x => x.id = bid) = _
    rw [find?_updateFirst (fun x => decide (x.id = bid))
      (fun x => { x with status := BookingStatus.checked_out }) db1.bookings (fun a => rfl), hb1]
    rfl
  have hgX : (setRoomStatus { db1 with
      bookings := updateFirst (fun x => x.id = bid)
        (fun x => { x with status := BookingStatus.checked_out }) db1.bookings }
      b.room_id RoomStatus.cleaning).guests.find?
      (fun x => x.id = ({ b with status := BookingStatus.checked_out } : Booking).guest_id) =
      some g := hg1
  have hrX : (setRoomStatus { db1 with
      bookings := updateFirst (fun x => x.id = bid)
        (fun x => { x with status := BookingStatus.checked_out }) db1.bookings }
      b.room_id RoomStatus.cleaning).rooms.find?
      (fun x => x.id = ({ b with status := BookingStatus.checked_out } : Booking).room_id) =
      some { r with status := RoomStatus.cleaning } := by
    show (updateFirst (fun x => x.id = b.room_id)
      (fun x => { x with status := RoomStatus.cleaning }) db1.rooms).find?
        (fun x => x.id = b.room_id) = _
    rw [find?_updateFirst (fun x => decide (x.id = b.room_id))
      (fun x => { x with status := RoomStatus.cleaning }) db1.rooms (fun a => rfl), hr1]
    rfl
  have hgen := generate_invoice_ok_of _ bid i n _ g { r with status := RoomStatus.cleaning }
    hbX hgX hrX
  unfold checkoutFinish
  dsimp only
  rw [hgen]

theorem checkoutFinish_snd_payments (db1 : DB) (bid : String) (bk : Booking)
    (tp bd : ℚ) (i : String) (n : Nat) :
    (checkoutFinish db1 bid bk tp bd i n).2.payments = db1.payments := by
  unfold checkoutFinish
  dsimp only
  rcases hgen : generate_invoice (setRoomStatus { db1 with
      bookings := updateFirst (fun b => b.id = bid)
        (fun b => { b with status := BookingStatus.checked_out }) db1.bookings }
      bk.room_id RoomStatus.cleaning) bid i n with ⟨res, db4⟩
  have h4 : db4 = (generate_invoice (setRoomStatus { db1 with
      bookings := updateFirst (fun b => b.id = bid)
        (fun b => { b with status := BookingStatus.checked_out }) db1.bookings }
      bk.room_id RoomStatus.cleaning) bid i n).2 := by rw [hgen]
  cases res with
  | error e =>
    show db4.payments = db1.payments
    rw [h4, (generate_invoice_frame _ _ _ _).1]
    rfl
  | ok inv =>
    show db4.payments = db1.payments
    rw [h4, (generate_invoice_frame _ _ _ _).1]
    rfl

theorem checkout_success_post (db db1 : DB) (booking_id : String) (b : Booking)
    (tp bd : ℚ) (inv_id : String) (inv_now : Nat) (s : CheckoutSummary) (db2 : DB)
    (h : checkoutFinish db1 booking_id b tp bd inv_id inv_now = (.ok s, db2))
    (hb : db.bookings.find? (fun x => x.id = booking_id) = some b)
    (hbk : db1.bookings = db.bookings)
    (hinv : db1.invoices = db.invoices)
    (hrooms : db1.rooms = db.rooms)
    (hpay : sumAmounts (paymentsFor db1 booking_id) = tp)
    (hbd : bd = b.total_amount - tp) :
    s.booking_id = booking_id ∧ s.total_amount = b.total_amount ∧
    s.total_paid = sumAmounts (paymentsFor db2 booking_id) ∧
    s.balance_due = b.total_amount - s.total_paid ∧
    (∃ b2, db2.bookings.find? (fun x => x.id = booking_id) = some b2 ∧
      b2.status = BookingStatus.checked_out) ∧
    (∀ r, db2.rooms.find? (fun x => x.id = b.room_id) = some r →
      r.status = RoomStatus.cleaning) ∧
    (∃ inv, db2.invoices = db.invoices ++ [inv] ∧ s.invoice_id = inv_id ∧
      inv.id = inv_id) := by
  obtain ⟨h1, h2, h3, h4, h5, h6, h7, h8, inv, hi1, hi2⟩ :=
    checkoutFinish_shape db1 booking_id b tp bd inv_id inv_now s db2 h
  have hpf2 : paymentsFor db2 booking_id = paymentsFor db1 booking_id := by
    unfold paymentsFor
    rw [h6]
  refine ⟨h1, h2, ?_, ?_, ?_, ?_, inv, ?_, h5, hi1⟩
  · rw [hpf2, hpay, h3]
  · rw [h4, hbd, h3]
  · refine ⟨{ b with status := BookingStatus.checked_out }, ?_, rfl⟩
    rw [h7, hbk, find?_updateFirst (fun x => decide (x.id = booking_id))
      (fun x => { x with status := BookingStatus.checked_out }) db.bookings (fun a => rfl), hb]
    rfl
  · intro r hr
    rw [h8, hrooms, find?_updateFirst (fun x => decide (x.id = b.room_id))
      (fun x => { x with status := RoomStatus.cleaning }) db.rooms (fun a => rfl)] at hr
    cases hfind : db.rooms.find? (fun x => x.id = b.room_id) with
    | none =>
      rw [hfind] at hr
      exact absurd hr (by simp)
    | some r0 =>
      rw [hfind] at hr
      obtain rfl : { r0 with status := RoomStatus.cleaning } = r := by injection hr
      rfl
  · rw [hi2, hinv]

/-- C2: checkout fails 404 when the booking is missing; fails 400 when the
status is not `checked_in` (regardless of the balance); with a final payment
supplied and a positive balance it fails 400 when the amount exceeds the
balance and otherwise records the payment with `is_advance = false`; and on
success it sets the booking `checked_out`, sets the room `cleaning`, persists
a new invoice and returns post-payment `total_paid`/`balance_due` figures. -/
theorem c2_checkout_contract (db : DB) (booking_id : String) (fp : Option PaymentCreate)
    (pay_id : String) (pay_now : Nat) (inv_id : String) (inv_now : Nat) :
    (db.bookings.find? (fun x => x.id = booking_id) = none →
      checkout_booking db booking_id fp pay_id pay_now inv_id inv_now =
        (.error ⟨404, "Booking not found"⟩, db)) ∧
    (∀ b, db.bookings.find? (fun x => x.id = booking_id) = some b →
      b.status ≠ BookingStatus.checked_in →
      checkout_booking db booking_id fp pay_id pay_now inv_id inv_now =
        (.error ⟨400, "Booking must be checked in to checkout"⟩, db)) ∧
    (∀ b pc, db.bookings.find? (fun x => x.id = booking_id) = some b →
      b.status = BookingStatus.checked_in → fp = some pc →
      b.total_amount - sumAmounts (paymentsFor db booking_id) > 0 →
      ((pc.amount > b.total_amount - sumAmounts (paymentsFor db booking_id) →
        checkout_booking db booking_id fp pay_id pay_now inv_id inv_now =
          (.error ⟨400, "Payment amount exceeds balance due"⟩, db)) ∧
       (¬(pc.amount > b.total_amount - sumAmounts (paymentsFor db booking_id)) →
        (checkout_booking db booking_id fp pay_id pay_now inv_id inv_now).2.payments =
          db.payments ++ [⟨pay_id, booking_id, pc.payment_type, pc.amount, pay_now,
            PaymentStatus.completed, pc.description, false⟩]))) ∧
    (∀ b s db2, db.bookings.find? (fun x => x.id = booking_id) = some b →
      checkout_booking db booking_id fp pay_id pay_now inv_id inv_now = (.ok s, db2) →
      s.booking_id = booking_id ∧ s.total_amount = b.total_amount ∧
      s.total_paid = sumAmounts (paymentsFor db2 booking_id) ∧
      s.balance_due = b.total_amount - s.total_paid ∧
      (∃ b2, db2.bookings.find? (fun x => x.id = booking_id) = some b2 ∧
        b2.status = BookingStatus.checked_out) ∧
      (∀ r, db2.rooms.find? (fun x => x.id = b.room_id) = some r →
        r.status = RoomStatus.cleaning) ∧
      (∃ inv, db2.invoices = db.invoices ++ [inv] ∧ s.invoice_id = inv_id ∧
        inv.id = inv_id)) := by
  refine ⟨?_, ?_, ?_, ?_⟩
  · intro h
    unfold checkout_booking
    rw [h]
  · intro b hb hst
    unfold checkout_booking
    rw [hb]
    dsimp only
    rw [if_pos hst]
  · intro b pc hb hst hfp hpos
    constructor
    · intro hgt
      unfold checkout_booking
      rw [hb]
      dsimp only
      rw [if_neg (not_not_intro hst), hfp]
      dsimp only
      rw [if_pos hpos, if_pos hgt]
    · intro hgt
      unfold checkout_booking
      rw [hb]
      dsimp only
      rw [if_neg (not_not_intro hst), hfp]
      dsimp only
      rw [if_pos hpos, if_neg hgt]
      dsimp only
      rw [checkoutFinish_snd_payments]
  · intro b s db2 hb hok
    unfold checkout_booking at hok
    rw [hb] at hok
    dsimp only at hok
    by_cases hst : b.status = BookingStatus.checked_in
    · rw [if_neg (not_not_intro hst)] at hok
      cases hfp : fp with
      | none =>
        rw [hfp] at hok
        dsimp only at hok
        exact checkout_success_post db db booking_id b _ _ inv_id inv_now s db2 hok hb
          rfl rfl rfl rfl rfl
      | some pc =>
        rw [hfp] at hok
        dsimp only at hok
        by_cases hpos : b.total_amount - sumAmounts (paymentsFor db booking_id) > 0
        · rw [if_pos hpos] at hok
          by_cases hgt : pc.amount > b.total_amount - sumAmounts (paymentsFor db booking_id)
          · rw [if_pos hgt] at hok
            dsimp only at hok
            injection hok with h1 h2
            exact Except.noConfusion h1
          · rw [if_neg hgt] at hok
            dsimp only at hok
            refine checkout_success_post db _ booking_id b _ _ inv_id inv_now s db2 hok hb
              rfl rfl rfl ?_ (by ring)
            show sumAmounts ((db.payments ++ [(⟨pay_id, booking_id, pc.payment_type, pc.amount,
              pay_now, PaymentStatus.completed, pc.description, false⟩ : Payment)]).filter
                (fun p => p.booking_id = booking_id)) = _
            rw [List.filter_append, sumAmounts_append]
            simp [sumAmounts, paymentsFor]
        · rw [if_neg hpos] at hok
          dsimp only at hok
          exact checkout_success_post db db booking_id b _ _ inv_id inv_now s db2 hok hb
            rfl rfl rfl rfl rfl
    · rw [if_pos hst] at hok
      injection hok with h1 h2
      exact Except.noConfusion h1

/-- C2 witness: paying 150 of the 200 balance at checkout records the payment. -/
theorem c2_witness :
    (checkout_booking dbCheckedIn "bk1"
        (some ⟨"bk1", PaymentType.card, 150, none, false⟩) "p5" 30 "inv2" 30).2.payments =
      dbCheckedIn.payments ++ [⟨"p5", "bk1", PaymentType.card, 150, 30,
        PaymentStatus.completed, none, false⟩] :=
  ((c2_checkout_contract dbCheckedIn "bk1"
      (some ⟨"bk1", PaymentType.card, 150, none, false⟩) "p5" 30 "inv2" 30).2.2.1
    bookingA ⟨"bk1", PaymentType.card, 150, none, false⟩ (by decide) rfl rfl
    (by norm_num [bookingA, sumAmounts, paymentsFor, dbCheckedIn, advancePay])).2
    (by norm_num [bookingA, sumAmounts, paymentsFor, dbCheckedIn, advancePay])

/-- C10: on a checked-in booking whose balance is already ≤ 0, a supplied final
payment is silently discarded — checkout succeeds, the payment list is
unchanged, and the returned figures exclude the supplied amount. -/
theorem c10_overpaid_checkout_discards (db : DB) (booking_id : String) (pc : PaymentCreate)
    (pay_id : String) (pay_now : Nat) (inv_id : String) (inv_now : Nat)
    (b : Booking) (g : Guest) (r : Room)
    (hb : db.bookings.find? (fun x => x.id = booking_id) = some b)
    (hst : b.status = BookingStatus.checked_in)
    (hg : db.guests.find? (fun x => x.id = b.guest_id) = some g)
    (hr : db.rooms.find? (fun x => x.id = b.room_id) = some r)
    (hbal : b.total_amount - sumAmounts (paymentsFor db booking_id) ≤ 0) :
    (checkout_booking db booking_id (some pc) pay_id pay_now inv_id inv_now).1 =
      .ok ⟨booking_id, b.total_amount, sumAmounts (paymentsFor db booking_id),
        b.total_amount - sumAmounts (paymentsFor db booking_id), inv_id⟩ ∧
    (checkout_booking db booking_id (some pc) pay_id pay_now inv_id inv_now).2.payments =
      db.payments := by
  constructor
  · unfold checkout_booking
    rw [hb]
    dsimp only
    rw [if_neg (not_not_intro hst)]
    try dsimp only
    rw [if_neg (not_lt.mpr hbal)]
    try dsimp only
    exact checkoutFinish_ok_of db booking_id b _ _ inv_id inv_now g r hb hg hr
  · unfold checkout_booking
    rw [hb]
    dsimp only
    rw [if_neg (not_not_intro hst)]
    try dsimp only
    rw [if_neg (not_lt.mpr hbal)]
    try dsimp only
    rw [checkoutFinish_snd_payments]

/-- C10 witness: checkout of the overpaid fixture with a stray final payment. -/
theorem c10_witness :
    (checkout_booking dbOverpaid "bk1"
        (some ⟨"bk1", PaymentType.cash, 25, none, false⟩) "p6" 40 "inv3" 40).1 =
      .ok ⟨"bk1", bookingA.total_amount, sumAmounts (paymentsFor dbOverpaid "bk1"),
        bookingA.total_amount - sumAmounts (paymentsFor dbOverpaid "bk1"), "inv3"⟩ ∧
    (checkout_booking dbOverpaid "bk1"
        (some ⟨"bk1", PaymentType.cash, 25, none, false⟩) "p6" 40 "inv3" 40).2.payments =
      dbOverpaid.payments :=
  c10_overpaid_checkout_discards dbOverpaid "bk1" ⟨"bk1", PaymentType.cash, 25, none, false⟩
    "p6" 40 "inv3" 40 bookingA guest1 room1 (by decide) rfl (by decide) (by decide)
    (by norm_num [bookingA, sumAmounts, paymentsFor, dbOverpaid, advancePay, bigPay])

end Hotel
